import Mathlib

/-!
A shallow embedding of the two driver families of this repository:

* `src/target/avr_pdi.c` — the AVR PDI register protocol (register read/write
  over a JTAG data-register shift primitive, the halt-request handshake, and
  the transport binding's initializer `avr_pdi_init`), and
* `src/target/lpc43xx.c` — the LPC43xx flash-family probe, IAP flash driver
  (`lpc43xx_flash_init`, `lpc43xx_mass_erase`, `lpc43xx_flash_erase`,
  `lpc43xx_cmd_mkboot`) and watchdog handling.

Machine integers are modelled as `Nat` (all operations in scope are masks,
shifts and comparisons, which never overflow their C types when the inputs are
in range; where C truncation matters it is written explicitly).  External
collaborators that are part of the repository but outside the excerpted
sources (the JTAG shift primitive, the IAP call trampoline, the generic
target registry) are modelled from the specification as explicit oracles and
effect logs, so that every theorem quantifies over their behaviour.
-/

/-! ## AVR PDI protocol (`src/target/avr_pdi.c`) -/

/-- Constant `PDI_EMPTY` (0xEBU): the PDI empty-frame handshake marker. -/
def PDI_EMPTY : Nat := 0xEB

/-- Constant `PDI_LDCS` (0x80U): Load Control/Status command base. -/
def PDI_LDCS : Nat := 0x80

/-- Constant `PDI_STCS` (0xC0U): Store Control/Status command base. -/
def PDI_STCS : Nat := 0xC0

/-- Constant `PDI_REG_STATUS` (0U). -/
def PDI_REG_STATUS : Nat := 0

/-- Constant `PDI_REG_RESET` (1U). -/
def PDI_REG_RESET : Nat := 1

/-- Constant `PDI_REG_R3` (3U). -/
def PDI_REG_R3 : Nat := 3

/-- Constant `PDI_REG_R4` (4U). -/
def PDI_REG_R4 : Nat := 4

/-- Constant `PDI_RESET` (0x59U): reset-trigger value. -/
def PDI_RESET_KEY : Nat := 0x59

/-- Modelled from the spec: the low-level JTAG byte shift primitive
`avr_jtag_shift_dr` (declared in `avr.h`, implemented outside the excerpted
sources) "returning both success/failure and the captured response byte"
(§6).  A simulated transport is a script `σ` giving, for the `k`-th shift
transaction issued and the byte shifted in, the primitive's boolean return
value and the captured response byte.  Per §4.2 (`register_write` "fails … if
either shift operation reports transport failure", matching the C call sites
that treat a truthy return as the failure branch), a `true` first component
is the "transport failure" report.  The threaded `Nat` is the number of shift
transactions issued so far (the transport call counter of §8). -/
def PdiTransport : Type := Nat → Nat → Bool × Nat

/-- Function `avr_pdi_reg_write` from `avr_pdi.c`: issue `PDI_STCS | reg`, require the
empty marker, issue `value`, require no transport failure and the empty
marker again.  Returns the updated transaction counter and the C `bool`
result.  The `if` chain mirrors the short-circuit `||` chain of the source:
a later shift is only issued when every earlier test passed. -/
def avr_pdi_reg_write (σ : PdiTransport) (n : Nat) (reg value : Nat) : Nat × Bool :=
  let command := PDI_STCS ||| reg
  if 16 ≤ reg then (n, false)
  else if (σ n command).1 then (n + 1, false)
  else if (σ n command).2 ≠ PDI_EMPTY then (n + 1, false)
  else if (σ (n + 1) value).1 then (n + 2, false)
  else (n + 2, (σ (n + 1) value).2 == PDI_EMPTY)

/-- Function `avr_pdi_reg_read` from `avr_pdi.c`: issue `PDI_LDCS | reg`, require the
empty marker, then shift the command byte again to pump the register value
out.  Note the source's negation on the second shift
(`!avr_jtag_shift_dr(...)`): the value-pump phase takes the failure path
(returning the `0xFF` sentinel) exactly when the second shift's boolean comes
back `false`, and returns the captured byte when it comes back `true`.
`value` is unused by the command byte computation; the function returns the
updated transaction counter and the C `uint8_t` result. -/
def avr_pdi_reg_read (σ : PdiTransport) (n : Nat) (reg : Nat) : Nat × Nat :=
  let command := PDI_LDCS ||| reg
  if 16 ≤ reg then (n, 0xFF)
  else if (σ n command).1 then (n + 1, 0xFF)
  else if (σ n command).2 ≠ PDI_EMPTY then (n + 1, 0xFF)
  else if !(σ (n + 1) command).1 then (n + 2, 0xFF)
  else (n + 2, (σ (n + 1) command).2)

/-- The C `enum target_halt_reason` as constrained by the spec's data model (§3):
`halt_reason` is "one of {not-halted/running, halted-by-request,
halted-by-other-cause}". -/
inductive TargetHaltReason
  | running
  | request
  | other
deriving DecidableEq, Repr

/-- Function `avr_halt_request` from `avr_pdi.c`: the five-step halt handshake.  The
result is `(transaction counter, halt_reason, fatal)`: `fatal = true` models
`raise_exception(EXCEPTION_ERROR, …)`, which aborts the operation by a
non-local jump, so `pdi->halt_reason` is only assigned on the full-success
path.  The `if` chain mirrors the short-circuit `||` chain of the source. -/
def avr_halt_request (σ : PdiTransport) (n : Nat) (reason : TargetHaltReason) :
    Nat × TargetHaltReason × Bool :=
  let s1 := avr_pdi_reg_write σ n PDI_REG_R4 1
  if !s1.2 then (s1.1, reason, true)
  else
    let s2 := avr_pdi_reg_read σ s1.1 PDI_REG_R3
    if s2.2 ≠ 0x10 then (s2.1, reason, true)
    else
      let s3 := avr_pdi_reg_write σ s2.1 PDI_REG_RESET 0
      if !s3.2 then (s3.1, reason, true)
      else
        let s4 := avr_pdi_reg_read σ s3.1 PDI_REG_R3
        if s4.2 ≠ 0x14 then (s4.1, reason, true)
        else
          let s5 := avr_pdi_reg_read σ s4.1 PDI_REG_R3
          if s5.2 ≠ 0x04 then (s5.1, reason, true)
          else (s5.1, TargetHaltReason.request, false)

/-- The claim's description of the halt-request success condition, written as
a five-step transaction sequence: write R4 = 1 succeeds, read R3 = 0x10,
write RESET = 0 succeeds, read R3 = 0x14, read R3 = 0x04, each step consuming
the transport where the previous one left it.  (Unlike the code, all five
steps are evaluated unconditionally; the Boolean value is nevertheless the
same, which is part of what the C1 theorem establishes.) -/
def avr_halt_sequence_spec (σ : PdiTransport) (n : Nat) : Bool :=
  let s1 := avr_pdi_reg_write σ n PDI_REG_R4 1
  let s2 := avr_pdi_reg_read σ s1.1 PDI_REG_R3
  let s3 := avr_pdi_reg_write σ s2.1 PDI_REG_RESET 0
  let s4 := avr_pdi_reg_read σ s3.1 PDI_REG_R3
  let s5 := avr_pdi_reg_read σ s4.1 PDI_REG_R3
  s1.2 && (s2.2 == 0x10) && s3.2 && (s4.2 == 0x14) && (s5.2 == 0x04)

/-- The `avr_pdi_t` debug context: the fields of the data model (§3) that the
excerpted code reads or writes. -/
structure AvrPdi where
  dp_jd_index : Nat
  idcode : Nat
  halt_reason : TargetHaltReason
deriving DecidableEq, Repr

/-- Outcome of `avr_pdi_init`: the C `bool` result, whether `free(pdi)` was
executed, and the context's final state (`none` once freed). -/
structure AvrInitResult where
  success : Bool
  contextFreed : Bool
  pdi : Option AvrPdi
deriving DecidableEq, Repr

/-- Function `avr_pdi_init` from `avr_pdi.c`.  `atxmega_probe` is the chip-family
prober (repository code outside the excerpted sources; per spec §4.2 it
either recognizes the device or not and may refine the context), modelled as
an oracle returning its C `bool` and the context it leaves behind.
`target_new_ok` models whether `target_new()` returns a non-NULL target.  The
`jtag_dev_write_ir(..., IR_BYPASS)` call, the `DEBUG_*` logging and the
population of the generic target object's fields are external side effects
with no bearing on the modelled state.  Note the known leak: on `target_new`
failure the context is not freed. -/
def avr_pdi_init (atxmega_probe : AvrPdi → Bool × AvrPdi) (target_new_ok : Bool)
    (pdi : AvrPdi) : AvrInitResult :=
  if pdi.idcode &&& 0x0FFFF000 = 0 then ⟨false, true, none⟩
  else if !target_new_ok then ⟨false, false, some pdi⟩
  else
    let p := atxmega_probe pdi
    if p.1 then ⟨true, false, some p.2⟩
    else ⟨true, false, some { p.2 with halt_reason := TargetHaltReason.running }⟩

/-! ### Concrete simulated transports (used by witnesses and counterexamples) -/

/-- Every shift reports success (no transport failure) and captures the empty
marker `0xEB`. -/
def pdiEmptyScript : PdiTransport := fun _ _ => (false, PDI_EMPTY)

/-- Every shift reports success and captures the byte `b`. -/
def pdiConstScript (b : Nat) : PdiTransport := fun _ _ => (false, b)

/-- Shift `s + 1` raises the primitive's flag with byte `b`; every other
shift reports success with the empty marker. -/
def pdiDataScript (s b : Nat) : PdiTransport :=
  fun k _ => if k = s + 1 then (true, b) else (false, PDI_EMPTY)

/-- Shift `s + 1` reports success with byte `b`; every other shift reports
success with the empty marker. -/
def pdiSubstScript (s b : Nat) : PdiTransport :=
  fun k _ => if k = s + 1 then (false, b) else (false, PDI_EMPTY)

/-- A transport driving the full halt-request handshake to success:
acknowledgement phases report success with `0xEB`, value-pump phases raise
the flag with the three expected R3 values `0x10`, `0x14`, `0x04`. -/
def pdiHaltGoodScript : PdiTransport := fun k _ =>
  if k = 3 then (true, 0x10)
  else if k = 7 then (true, 0x14)
  else if k = 9 then (true, 0x04)
  else (false, PDI_EMPTY)

/-- Like `pdiHaltGoodScript` but the final R3 read pumps `0x08` instead of
`0x04`, so the last handshake step deviates. -/
def pdiHaltBadScript : PdiTransport := fun k _ =>
  if k = 3 then (true, 0x10)
  else if k = 7 then (true, 0x14)
  else if k = 9 then (true, 0x08)
  else (false, PDI_EMPTY)

/-! ## LPC43xx flash driver (`src/target/lpc43xx.c`) -/

/-- Constant `LPC43xx_CHIPID` (0x40043200U). -/
def LPC43xx_CHIPID : Nat := 0x40043200

/-- Constant `LPC43xx_CHIPID_FAMILY_MASK` (0x0fffffffU). -/
def LPC43xx_CHIPID_FAMILY_MASK : Nat := 0x0fffffff

/-- Constant `LPC43xx_CHIPID_FAMILY_CODE` (0x0906002bU). -/
def LPC43xx_CHIPID_FAMILY_CODE : Nat := 0x0906002b

/-- Constant `LPC43xx_CHIPID_CHIP_MASK` (0xf0000000U). -/
def LPC43xx_CHIPID_CHIP_MASK : Nat := 0xf0000000

/-- Constant `LPC43xx_CHIPID_CHIP_SHIFT` (28U). -/
def LPC43xx_CHIPID_CHIP_SHIFT : Nat := 28

/-- Constant `LPC43xx_CHIPID_CORE_TYPE_MASK` (0xff0ffff0U). -/
def LPC43xx_CHIPID_CORE_TYPE_MASK : Nat := 0xff0ffff0

/-- Constant `IAP_ENTRYPOINT_LOCATION` (0x10400100U). -/
def IAP_ENTRYPOINT_LOCATION : Nat := 0x10400100

/-- Constant `LPC43xx_ETBAHB_SRAM_BASE`, aliased as `IAP_RAM_BASE`. -/
def IAP_RAM_BASE : Nat := 0x2000c000

/-- Constant `LPC43xx_ETBAHB_SRAM_SIZE` (16 KiB), aliased as `IAP_RAM_SIZE`. -/
def IAP_RAM_SIZE : Nat := 16 * 1024

/-- Constant `LPC43xx_CGU_CPU_CLK` (`LPC43xx_CGU_BASE + 0x06C`). -/
def LPC43xx_CGU_CPU_CLK : Nat := 0x40050000 + 0x06C

/-- Constant `LPC43xx_CGU_BASE_CLK_AUTOBLOCK` (1 << 11). -/
def LPC43xx_CGU_BASE_CLK_AUTOBLOCK : Nat := 1 <<< 11

/-- Constant `LPC43xx_CGU_BASE_CLK_SEL_IRC` (1 << 24). -/
def LPC43xx_CGU_BASE_CLK_SEL_IRC : Nat := 1 <<< 24

/-- Constant `LPC43xx_WDT_MODE` (0x40080000U). -/
def LPC43xx_WDT_MODE : Nat := 0x40080000

/-- Constant `LPC43xx_WDT_CNT` (0x40080004U). -/
def LPC43xx_WDT_CNT : Nat := 0x40080004

/-- Constant `LPC43xx_WDT_FEED` (0x40080008U). -/
def LPC43xx_WDT_FEED : Nat := 0x40080008

/-- Constant `LPC43xx_WDT_PERIOD_MAX` (0xffffffU). -/
def LPC43xx_WDT_PERIOD_MAX : Nat := 0xffffff

/-- Constant `LPC43xx_WDT_PROTECT` (1 << 4). -/
def LPC43xx_WDT_PROTECT : Nat := 1 <<< 4

/-- Constant `IAP_PGM_CHUNKSIZE` (4096U). -/
def IAP_PGM_CHUNKSIZE : Nat := 4096

/-- Constant `FLASH_NUM_BANK` (2U). -/
def FLASH_NUM_BANK : Nat := 2

/-- Constant `FLASH_NUM_SECTOR` (15U). -/
def FLASH_NUM_SECTOR : Nat := 15

/-- Modelled from the spec: `IAP_STATUS_CMD_SUCCESS`, the IAP "status code
[that] indicate[s] success" (§4.4); defined in `lpc_common.h`, outside the
excerpted sources.  The C call sites branch on the raw status being non-zero
(`if (lpc_iap_call(...))`), so success is status 0. -/
def IAP_STATUS_CMD_SUCCESS : Nat := 0

/-- Modelled from the spec: `CPU_CLK_KHZ`, "the core's clock frequency"
in kHz passed to the ERASE and SET_ACTIVE_BANK IAP commands (§4.4, §6);
defined in `lpc_common.h`, outside the excerpted sources.  The exact value is
irrelevant to every claim; the internal RC oscillator runs at 12 MHz. -/
def CPU_CLK_KHZ : Nat := 12000

/-- Modelled from the spec: the IAP commands this driver issues, with their
argument lists — "commands used: INIT, PREPARE(sector-lo, sector-hi, bank),
ERASE(sector-lo, sector-hi, clock-kHz, bank), SET_ACTIVE_BANK(bank,
clock-kHz)" (§6). -/
inductive IapCall
  | init
  | prepare (sectorLo sectorHi bank : Nat)
  | erase (sectorLo sectorHi clkKHz bank : Nat)
  | setActiveBank (bank clkKHz : Nat)
deriving DecidableEq, Repr

/-- The oracle half of the target: `memRead` is what `target_mem_read32`
returns at each address (no modelled flow reads an address it has written);
`iapStatus k` is the status code the `k`-th IAP call of the run returns;
`lpcFlashEraseStatus` is the result of the shared, chip-family-agnostic
`lpc_flash_erase` primitive (external collaborator, §4.4). -/
structure Lpc43xxEnv where
  memRead : Nat → Nat
  iapStatus : Nat → Nat
  lpcFlashEraseStatus : Int

/-- The effect log of a run: `target_mem_write32` writes in order, IAP calls
in order, and delegations to the shared `lpc_flash_erase` primitive. -/
structure Lpc43xxTrace where
  memWrites : List (Nat × Nat)
  iapCalls : List IapCall
  eraseDelegations : List (Nat × Nat)
deriving DecidableEq, Repr

/-- The empty effect log. -/
def emptyTrace : Lpc43xxTrace := ⟨[], [], []⟩

/-- Function `target_mem_write32` (generic target abstraction), as an effect-log
append. -/
def target_mem_write32 (tr : Lpc43xxTrace) (addr value : Nat) : Lpc43xxTrace :=
  { tr with memWrites := tr.memWrites ++ [(addr, value)] }

/-- Modelled from the spec: `lpc_iap_call` (in `lpc_common.c`, outside the
excerpted sources), the "ROM call trampoline / IAP ABI" of §6: submits one
command with its arguments and yields "a returned status code".  The status
of the `k`-th call of a run is `env.iapStatus k`. -/
def lpc_iap_call (env : Lpc43xxEnv) (tr : Lpc43xxTrace) (call : IapCall) :
    Lpc43xxTrace × Nat :=
  ({ tr with iapCalls := tr.iapCalls ++ [call] }, env.iapStatus tr.iapCalls.length)

/-- Modelled from the spec: `lpc_flash_erase` (in `lpc_common.c`, outside the
excerpted sources), the "shared chip-family-agnostic erase primitive" that
`lpc43xx_flash_erase` delegates to (§4.4). -/
def lpc_flash_erase (env : Lpc43xxEnv) (tr : Lpc43xxTrace) (addr len : Nat) :
    Lpc43xxTrace × Int :=
  ({ tr with eraseDelegations := tr.eraseDelegations ++ [(addr, len)] },
    env.lpcFlashEraseStatus)

/-- Function `lpc43xx_wdt_set_period` from `lpc43xx.c`: read the watchdog mode
register; if the watchdog is on (`wdt_mode` non-zero) and not hardware-locked
(`LPC43xx_WDT_PROTECT` clear), write the maximum period into the count
register. -/
def lpc43xx_wdt_set_period (env : Lpc43xxEnv) (tr : Lpc43xxTrace) : Lpc43xxTrace :=
  let wdt_mode := env.memRead LPC43xx_WDT_MODE
  if wdt_mode ≠ 0 ∧ wdt_mode &&& LPC43xx_WDT_PROTECT = 0 then
    target_mem_write32 tr LPC43xx_WDT_CNT LPC43xx_WDT_PERIOD_MAX
  else tr

/-- Function `lpc43xx_wdt_kick` from `lpc43xx.c`: if the watchdog is on, write the two
feed values 0xAA, 0xFF to the feed register. -/
def lpc43xx_wdt_kick (env : Lpc43xxEnv) (tr : Lpc43xxTrace) : Lpc43xxTrace :=
  let wdt_mode := env.memRead LPC43xx_WDT_MODE
  if wdt_mode ≠ 0 then
    target_mem_write32 (target_mem_write32 tr LPC43xx_WDT_FEED 0xAA) LPC43xx_WDT_FEED 0xFF
  else tr

/-- Function `lpc43xx_flash_init` from `lpc43xx.c`: de-fang the watchdog, force the
internal clock, then issue the IAP INIT call, succeeding exactly when the
returned status equals `IAP_STATUS_CMD_SUCCESS`. -/
def lpc43xx_flash_init (env : Lpc43xxEnv) (tr : Lpc43xxTrace) : Lpc43xxTrace × Bool :=
  let tr1 := lpc43xx_wdt_set_period env tr
  let tr2 := target_mem_write32 tr1 LPC43xx_CGU_CPU_CLK
    (LPC43xx_CGU_BASE_CLK_AUTOBLOCK ||| LPC43xx_CGU_BASE_CLK_SEL_IRC)
  let r := lpc_iap_call env tr2 IapCall.init
  (r.1, r.2 == IAP_STATUS_CMD_SUCCESS)

/-- One iteration of the `lpc43xx_mass_erase` bank loop: PREPARE sectors
0 … `FLASH_NUM_SECTOR - 1` of `bank`, and if that reported status 0, ERASE
the same range at `CPU_CLK_KHZ`; the C `||` short-circuits, so the ERASE call
is only issued when the PREPARE status was 0. -/
def lpc43xx_mass_erase_bank (env : Lpc43xxEnv) (tr : Lpc43xxTrace) (bank : Nat) :
    Lpc43xxTrace × Bool :=
  let r1 := lpc_iap_call env tr (IapCall.prepare 0 (FLASH_NUM_SECTOR - 1) bank)
  if r1.2 ≠ 0 then (r1.1, false)
  else
    let r2 := lpc_iap_call env r1.1 (IapCall.erase 0 (FLASH_NUM_SECTOR - 1) CPU_CLK_KHZ bank)
    if r2.2 ≠ 0 then (r2.1, false) else (r2.1, true)

/-- The `for (size_t bank = 0; bank < FLASH_NUM_BANK; ++bank)` loop of
`lpc43xx_mass_erase`, with its early `return false`.  The
`target_print_progress` call after each bank is cosmetic progress reporting
(§5) with no modelled effect. -/
def lpc43xx_mass_erase_loop (env : Lpc43xxEnv) : List Nat → Lpc43xxTrace → Lpc43xxTrace × Bool
  | [], tr => (tr, true)
  | bank :: rest, tr =>
    let r := lpc43xx_mass_erase_bank env tr bank
    if r.2 then lpc43xx_mass_erase_loop env rest r.1 else (r.1, false)

/-- Function `lpc43xx_mass_erase` from `lpc43xx.c`: run `lpc43xx_flash_init`
discarding its result, then the bank loop over banks `0 … FLASH_NUM_BANK-1`. -/
def lpc43xx_mass_erase (env : Lpc43xxEnv) (tr : Lpc43xxTrace) : Lpc43xxTrace × Bool :=
  let r := lpc43xx_flash_init env tr
  lpc43xx_mass_erase_loop env (List.range FLASH_NUM_BANK) r.1

/-- Function `lpc43xx_flash_erase` from `lpc43xx.c`: re-run `lpc43xx_flash_init`; on
failure return −1 without delegating; otherwise delegate to the shared
`lpc_flash_erase` primitive. -/
def lpc43xx_flash_erase (env : Lpc43xxEnv) (tr : Lpc43xxTrace) (addr len : Nat) :
    Lpc43xxTrace × Int :=
  let r := lpc43xx_flash_init env tr
  if !r.2 then (r.1, -1) else lpc_flash_erase env r.1 addr len

/-- Modelled from the C standard library: `strtoul(s, NULL, 0)` digit
classification — the value of `c` as a digit in `base`, when it is one. -/
def strtoulDigit (base : Nat) (c : Char) : Option Nat :=
  let v : Option Nat :=
    if '0' ≤ c ∧ c ≤ '9' then some (c.toNat - '0'.toNat)
    else if 'a' ≤ c ∧ c ≤ 'z' then some (c.toNat - 'a'.toNat + 10)
    else if 'A' ≤ c ∧ c ≤ 'Z' then some (c.toNat - 'A'.toNat + 10)
    else none
  match v with
  | some d => if d < base then some d else none
  | none => none

/-- Modelled from the C standard library: the longest-digit-run accumulation
of `strtoul`, clamping at `ULONG_MAX` (2³² − 1 on this 32-bit target) on
overflow as the C function does. -/
def strtoulDigits (base : Nat) : List Char → Nat → Nat
  | [], acc => acc
  | c :: rest, acc =>
    match strtoulDigit base c with
    | some d => strtoulDigits base rest (min (acc * base + d) (2 ^ 32 - 1))
    | none => acc

/-- Modelled from the C standard library: leading-whitespace skip of
`strtoul`. -/
def strtoulSkipSpaces : List Char → List Char
  | [] => []
  | c :: rest =>
    if c = ' ' ∨ c = '\t' ∨ c = '\n' ∨ c = '\r' then strtoulSkipSpaces rest else c :: rest

/-- Modelled from the C standard library: `strtoul(s, NULL, 0)` as called by
`lpc43xx_cmd_mkboot` on a platform with a 32-bit `unsigned long`: skip
whitespace, accept an optional sign, infer base 16/8/10 from a `0x`/`0`
prefix, consume the longest digit run (an empty run yields 0), and negate
modulo 2³² for a leading minus. -/
def strtoul (s : String) : Nat :=
  let cs := strtoulSkipSpaces s.toList
  let signed : Bool × List Char :=
    match cs with
    | '-' :: rest => (true, rest)
    | '+' :: rest => (false, rest)
    | _ => (false, cs)
  let v : Nat :=
    match signed.2 with
    | '0' :: 'x' :: rest => strtoulDigits 16 rest 0
    | '0' :: 'X' :: rest => strtoulDigits 16 rest 0
    | '0' :: rest => strtoulDigits 8 rest 0
    | rest => strtoulDigits 10 rest 0
  if signed.1 then (2 ^ 32 - v % 2 ^ 32) % 2 ^ 32 else v

/-- Function `lpc43xx_cmd_mkboot` from `lpc43xx.c`: the `mkboot` command handler.
`argv` is the full argument vector (`argv[0]` is the command name, so a
single bank argument means `argc = 2`).  Rejects a wrong argument count, then
parses the bank with `strtoul(argv[1], NULL, 0)` and rejects values above 1;
otherwise runs `lpc43xx_flash_init` (result discarded) and issues the
SET_ACTIVE_BANK IAP call, whose non-zero status is the only remaining failure.
The `tc_printf` lines are output formatting with no modelled effect. -/
def lpc43xx_cmd_mkboot (env : Lpc43xxEnv) (tr : Lpc43xxTrace) (argv : List String) :
    Lpc43xxTrace × Bool :=
  if argv.length ≠ 2 then (tr, false)
  else
    let bank := strtoul (argv.getD 1 "")
    if bank > 1 then (tr, false)
    else
      let r1 := lpc43xx_flash_init env tr
      let r2 := lpc_iap_call env r1.1 (IapCall.setActiveBank bank CPU_CLK_KHZ)
      if r2.2 ≠ 0 then (r2.1, false) else (r2.1, true)

/-- A flash region descriptor: the fields `lpc43xx_add_flash` fills in on the
`struct lpc_flash` it obtains from `lpc_add_flash` (the erase callback slot,
always `lpc43xx_flash_erase`, and the `wdt_kick` slot, always
`lpc43xx_wdt_kick`, are constant and elided). -/
structure LpcFlashRegion where
  start : Nat
  length : Nat
  blocksize : Nat
  buf_size : Nat
  bank : Nat
  base_sector : Nat
  iap_entry : Nat
  iap_ram : Nat
  iap_msp : Nat
deriving DecidableEq, Repr

/-- The slice of the generic target object that `lpc43xx_probe` and its
helpers touch: the CPU ID it reads, and the registrations it performs
(driver name, mass-erase callback slot, RAM regions, flash regions, command
table, the `CORTEXM_TOPT_INHIBIT_NRST` platform option). -/
structure LpcTarget where
  cpuid : Nat
  driver : String
  massEraseInstalled : Bool
  ramRegions : List (Nat × Nat)
  flashRegions : List LpcFlashRegion
  commandsInstalled : Bool
  inhibitNrst : Bool
deriving DecidableEq, Repr

/-- Function `target_add_ram` (generic target abstraction), as a registry append. -/
def target_add_ram (t : LpcTarget) (start len : Nat) : LpcTarget :=
  { t with ramRegions := t.ramRegions ++ [(start, len)] }

/-- Function `lpc43xx_add_flash` from `lpc43xx.c`: register one flash region with the
given bank, base sector, placement and erase block size; `buf_size` is
`IAP_PGM_CHUNKSIZE` and the IAP workspace is the fixed
`IAP_RAM_BASE`/`IAP_RAM_BASE + IAP_RAM_SIZE` pair. -/
def lpc43xx_add_flash (t : LpcTarget) (iap_entry bank base_sector addr len erasesize : Nat) :
    LpcTarget :=
  { t with flashRegions := t.flashRegions ++
      [⟨addr, len, erasesize, IAP_PGM_CHUNKSIZE, bank, base_sector, iap_entry,
        IAP_RAM_BASE, IAP_RAM_BASE + IAP_RAM_SIZE⟩] }

/-- Function `lpc43xx_detect_flash` from `lpc43xx.c` (the LPC4337 flash-bearing
layout): read the IAP entry point from its fixed location, then register the
initial RAM window, two banks of two flash regions each (a fine-grained 8 ×
8 KiB region and a coarse 7 × 64 KiB region per bank), the two remaining RAM
windows, the LPC43xx command table, and the inhibit-pin-reset platform
option.  `core_type` is explicitly unused (`(void)core_type`). -/
def lpc43xx_detect_flash (env : Lpc43xxEnv) (t : LpcTarget) (_core_type : Nat) : LpcTarget :=
  let iap_entry := env.memRead IAP_ENTRYPOINT_LOCATION
  let t1 := target_add_ram t 0 0x1A000000
  let t2 := lpc43xx_add_flash t1 iap_entry 0 0 0x1A000000 0x10000 0x2000
  let t3 := lpc43xx_add_flash t2 iap_entry 0 8 0x1A010000 0x70000 0x10000
  let t4 := target_add_ram t3 0x1A080000 0xF80000
  let t5 := lpc43xx_add_flash t4 iap_entry 1 0 0x1B000000 0x10000 0x2000
  let t6 := lpc43xx_add_flash t5 iap_entry 1 8 0x1B010000 0x70000 0x10000
  let t7 := { t6 with commandsInstalled := true }
  let t8 := target_add_ram t7 0x1B080000 0xE4F80000
  { t8 with inhibitNrst := true }

/-- Function `lpc43xx_detect_flashless` from `lpc43xx.c`: both parameters are
explicitly unused; nothing is registered. -/
def lpc43xx_detect_flashless (t : LpcTarget) (_core_type : Nat) : LpcTarget := t

/-- Function `lpc43xx_probe` from `lpc43xx.c`: read the chip-ID register; reject the
device unless the masked family code matches; otherwise set the driver name
and the mass-erase callback, then dispatch on `chip_code` (the top four bits
of the chip ID): 4 and 7 take the flash-bearing path, 5 and 6 the flash-less
path, and anything else returns `false`. -/
def lpc43xx_probe (env : Lpc43xxEnv) (t : LpcTarget) : LpcTarget × Bool :=
  let chipid := env.memRead LPC43xx_CHIPID
  if chipid &&& LPC43xx_CHIPID_FAMILY_MASK ≠ LPC43xx_CHIPID_FAMILY_CODE then (t, false)
  else
    let core_type := t.cpuid &&& LPC43xx_CHIPID_CORE_TYPE_MASK
    let chip_code := (chipid &&& LPC43xx_CHIPID_CHIP_MASK) >>> LPC43xx_CHIPID_CHIP_SHIFT
    let t1 := { t with driver := "LPC43xx", massEraseInstalled := true }
    if chip_code = 4 ∨ chip_code = 7 then (lpc43xx_detect_flash env t1 core_type, true)
    else if chip_code = 5 ∨ chip_code = 6 then (lpc43xx_detect_flashless t1 core_type, true)
    else (t1, false)

/-- An environment whose chip-ID register reads as the LPC43xx family code
with chip code `c`, and which otherwise behaves as `env`. -/
def envWithChipCode (env : Lpc43xxEnv) (c : Nat) : Lpc43xxEnv :=
  { env with memRead := fun addr =>
      if addr = LPC43xx_CHIPID then (c <<< 28) ||| LPC43xx_CHIPID_FAMILY_CODE
      else env.memRead addr }

/-! ### Concrete LPC43xx oracles (used by witnesses and counterexamples) -/

/-- Watchdog reads back disabled, every IAP call reports status 0, the shared
erase primitive succeeds. -/
def lpcEnvAllOk : Lpc43xxEnv := ⟨fun _ => 0, fun _ => 0, 0⟩

/-- Every IAP call reports status 1 (so the INIT call fails); watchdog
disabled. -/
def lpcEnvInitFail : Lpc43xxEnv := ⟨fun _ => 0, fun _ => 1, 0⟩

/-- The watchdog mode register reads as enabled (1) and not hardware-locked;
IAP calls succeed. -/
def lpcEnvWdtOn : Lpc43xxEnv :=
  ⟨fun addr => if addr = LPC43xx_WDT_MODE then 1 else 0, fun _ => 0, 0⟩

/-- The watchdog mode register reads as enabled with the
`LPC43xx_WDT_PROTECT` hardware-lock bit set (0x11); IAP calls succeed. -/
def lpcEnvWdtLocked : Lpc43xxEnv :=
  ⟨fun addr => if addr = LPC43xx_WDT_MODE then 0x11 else 0, fun _ => 0, 0⟩

/-- Bank 0's PREPARE and ERASE (IAP calls 1 and 2 of a mass-erase run)
succeed, bank 1's PREPARE (call 3) fails; the INIT call (call 0) succeeds. -/
def lpcEnvBank1PrepFail : Lpc43xxEnv :=
  ⟨fun _ => 0, fun k => if k = 3 then 1 else 0, 0⟩

/-- A fresh target object before probing. -/
def lpcTarget0 : LpcTarget := ⟨0, "", false, [], [], false, false⟩

/-! ## Theorems -/

/-- C7: for every `reg ≥ 16`, `avr_pdi_reg_write` returns `false` and
`avr_pdi_reg_read` returns the `0xFF` failure sentinel, and in both cases no
transport shift transaction is issued: the transaction counter comes back
unchanged at `n`, for every transport. -/
theorem avr_pdi_reg_oob_no_transaction (σ : PdiTransport) (n reg value : Nat)
    (h : 16 ≤ reg) :
    avr_pdi_reg_write σ n reg value = (n, false) ∧
    avr_pdi_reg_read σ n reg = (n, 0xFF) := by
  constructor
  · unfold avr_pdi_reg_write
    simp [h]
  · unfold avr_pdi_reg_read
    simp [h]

/-- Witness for C7 at `reg = 16` against the all-empty-marker transport. -/
theorem avr_pdi_reg_oob_no_transaction_witness :
    avr_pdi_reg_write pdiEmptyScript 0 16 0x42 = (0, false) ∧
    avr_pdi_reg_read pdiEmptyScript 0 16 = (0, 0xFF) :=
  avr_pdi_reg_oob_no_transaction pdiEmptyScript 0 16 0x42 (by decide)

/-- C2 counterexample: against the transport whose every shift reports
success and captures the empty marker `0xEB`, `avr_pdi_reg_write` does return
`true` at `reg = 3`, but `avr_pdi_reg_read` does not return the shifted-out
byte `0xEB` — it returns the `0xFF` failure sentinel, because the source
negates the second shift's boolean (`!avr_jtag_shift_dr(...)`), so the
value-pump phase fails precisely when the shift reports plain success. -/
theorem avr_pdi_reg_read_empty_marker_cex :
    avr_pdi_reg_write pdiEmptyScript 0 3 0x42 = (2, true) ∧
    avr_pdi_reg_read pdiEmptyScript 0 3 = (2, 0xFF) ∧
    (0xFF : Nat) ≠ PDI_EMPTY := by
  refine ⟨rfl, rfl, by decide⟩

/-- C2 (amended): for every `reg` in `[0,16)`: against the transport whose
every shift reports success with byte `0xEB`, `register_write` returns `true`
but `register_read` takes its failure path (the `0xFF` sentinel);
`register_read` succeeds — returning the pumped byte — when the first shift
reports success with `0xEB` and the second shift raises its flag; and against
a transport that reports success but returns a byte other than `0xEB` on
either phase, both operations fail. -/
theorem avr_pdi_reg_rw_handshake_amended (n reg value b : Nat) (hreg : reg < 16) :
    (avr_pdi_reg_write pdiEmptyScript n reg value).2 = true ∧
    (avr_pdi_reg_read pdiEmptyScript n reg).2 = 0xFF ∧
    (avr_pdi_reg_read (pdiDataScript n b) n reg).2 = b ∧
    (b ≠ PDI_EMPTY →
      (avr_pdi_reg_write (pdiConstScript b) n reg value).2 = false ∧
      (avr_pdi_reg_read (pdiConstScript b) n reg).2 = 0xFF ∧
      (avr_pdi_reg_write (pdiSubstScript n b) n reg value).2 = false) := by
  have hr : ¬ 16 ≤ reg := Nat.not_le.mpr hreg
  have hne : n ≠ n + 1 := by omega
  refine ⟨?_, ?_, ?_, fun hb => ⟨?_, ?_, ?_⟩⟩
  · unfold avr_pdi_reg_write pdiEmptyScript
    simp [hr, PDI_EMPTY]
  · unfold avr_pdi_reg_read pdiEmptyScript
    simp [hr, PDI_EMPTY]
  · unfold avr_pdi_reg_read pdiDataScript
    simp [hr, hne, PDI_EMPTY]
  · unfold avr_pdi_reg_write pdiConstScript
    simp [hr, hb]
  · unfold avr_pdi_reg_read pdiConstScript
    simp [hr, hb]
  · unfold avr_pdi_reg_write pdiSubstScript
    simp [hr, hne, hb]

/-- Witness for C2's amended theorem at `reg = 3`, `b = 0x42`. -/
theorem avr_pdi_reg_rw_handshake_amended_witness :
    (avr_pdi_reg_write pdiEmptyScript 0 3 0x42).2 = true ∧
    (avr_pdi_reg_read pdiEmptyScript 0 3).2 = 0xFF ∧
    (avr_pdi_reg_read (pdiDataScript 0 0x42) 0 3).2 = 0x42 ∧
    (avr_pdi_reg_write (pdiConstScript 0x42) 0 3 0x42).2 = false ∧
    (avr_pdi_reg_read (pdiConstScript 0x42) 0 3).2 = 0xFF ∧
    (avr_pdi_reg_write (pdiSubstScript 0 0x42) 0 3 0x42).2 = false := by
  have h := avr_pdi_reg_rw_handshake_amended 0 3 0x42 0x42 (by decide)
  have h4 := h.2.2.2 (by decide)
  exact ⟨h.1, h.2.1, h.2.2.1, h4.1, h4.2.1, h4.2.2⟩

/-- C8 counterexample: a transport whose second shift reports the failure
flag (`true`, the "transport failure" report of `register_write`'s
convention) with byte `0x42` does not send `avr_pdi_reg_read` to a `0xFF`
failure path: the read returns `0x42`. -/
theorem avr_pdi_reg_read_sentinel_cex :
    (avr_pdi_reg_read (pdiDataScript 0 0x42) 0 3).2 = 0x42 ∧
    (pdiDataScript 0 0x42 1 (PDI_LDCS ||| 3)).1 = true ∧
    (0x42 : Nat) ≠ 0xFF := by
  refine ⟨rfl, rfl, by decide⟩

/-- C8 (amended): `avr_pdi_reg_read` returns `0xFF` when `reg` is out of
range, when the first shift raises its flag, when the first response byte
differs from the empty marker, and when the second shift does not raise its
flag; when the second shift raises its flag its captured byte is returned
as-is — in particular a captured `0xFF` on the success path — so a `0xFF`
result is ambiguous between failure and a genuine register value `0xFF`. -/
theorem avr_pdi_reg_read_sentinel_amended (σ : PdiTransport) (n reg : Nat) :
    (16 ≤ reg → (avr_pdi_reg_read σ n reg).2 = 0xFF) ∧
    (reg < 16 → (σ n (PDI_LDCS ||| reg)).1 = true →
      (avr_pdi_reg_read σ n reg).2 = 0xFF) ∧
    (reg < 16 → (σ n (PDI_LDCS ||| reg)).1 = false →
      (σ n (PDI_LDCS ||| reg)).2 ≠ PDI_EMPTY → (avr_pdi_reg_read σ n reg).2 = 0xFF) ∧
    (reg < 16 → σ n (PDI_LDCS ||| reg) = (false, PDI_EMPTY) →
      (σ (n + 1) (PDI_LDCS ||| reg)).1 = false → (avr_pdi_reg_read σ n reg).2 = 0xFF) ∧
    (reg < 16 → σ n (PDI_LDCS ||| reg) = (false, PDI_EMPTY) →
      (σ (n + 1) (PDI_LDCS ||| reg)).1 = true →
      (avr_pdi_reg_read σ n reg).2 = (σ (n + 1) (PDI_LDCS ||| reg)).2) := by
  unfold avr_pdi_reg_read
  refine ⟨fun h => by simp [h], fun h1 h2 => ?_, fun h1 h2 h3 => ?_,
    fun h1 h2 h3 => ?_, fun h1 h2 h3 => ?_⟩
  · simp [Nat.not_le.mpr h1, h2]
  · simp [Nat.not_le.mpr h1, h2, h3]
  · simp [Nat.not_le.mpr h1, h2, h3]
  · simp [Nat.not_le.mpr h1, h2, h3]

/-- Witness for C8's amended theorem: the ambiguity case — a success-path
read whose pumped byte is a genuine `0xFF` is indistinguishable from the
sentinel. -/
theorem avr_pdi_reg_read_sentinel_amended_witness :
    (avr_pdi_reg_read (pdiDataScript 0 0xFF) 0 3).2 =
      (pdiDataScript 0 0xFF 1 (PDI_LDCS ||| 3)).2 ∧
    (pdiDataScript 0 0xFF 1 (PDI_LDCS ||| 3)).2 = 0xFF := by
  have h := (avr_pdi_reg_read_sentinel_amended (pdiDataScript 0 0xFF) 0 3).2.2.2.2
    (by decide) (by decide) (by decide)
  exact ⟨h, by decide⟩

/-- C1: `avr_halt_request` is all-or-nothing.  For every transport and every
prior `halt_reason`: it ends without a fatal error exactly when the
transactions yield the five-step sequence {write R4 = 1 succeeds, read R3 =
0x10, write RESET = 0 succeeds, read R3 = 0x14, read R3 = 0x04}
(`avr_halt_sequence_spec`); on full success `halt_reason` becomes
halted-by-request; on any deviation it raises the fatal error and
`halt_reason` retains its prior value — no partial update. -/
theorem avr_halt_request_all_or_nothing (σ : PdiTransport) (n : Nat)
    (reason : TargetHaltReason) :
    ((avr_halt_request σ n reason).2.2 = false ↔ avr_halt_sequence_spec σ n = true) ∧
    ((avr_halt_request σ n reason).2.2 = false →
      (avr_halt_request σ n reason).2.1 = TargetHaltReason.request) ∧
    ((avr_halt_request σ n reason).2.2 = true →
      (avr_halt_request σ n reason).2.1 = reason) := by
  unfold avr_halt_request avr_halt_sequence_spec
  rcases hs1 : avr_pdi_reg_write σ n PDI_REG_R4 1 with ⟨n1, ok1⟩
  cases ok1
  · simp
  · rcases hs2 : avr_pdi_reg_read σ n1 PDI_REG_R3 with ⟨n2, v2⟩
    by_cases h2 : v2 = 0x10
    · subst h2
      rcases hs3 : avr_pdi_reg_write σ n2 PDI_REG_RESET 0 with ⟨n3, ok3⟩
      cases ok3
      · simp [hs2, hs3]
      · rcases hs4 : avr_pdi_reg_read σ n3 PDI_REG_R3 with ⟨n4, v4⟩
        by_cases h4 : v4 = 0x14
        · subst h4
          rcases hs5 : avr_pdi_reg_read σ n4 PDI_REG_R3 with ⟨n5, v5⟩
          by_cases h5 : v5 = 0x04
          · subst h5
            simp [hs2, hs3, hs4, hs5]
          · simp [hs2, hs3, hs4, hs5, h5]
        · simp [hs2, hs3, hs4, h4]
    · simp [hs2, h2]

/-- Witness for C1: against the transport producing exactly the expected
sequence, the halt reason becomes halted-by-request; against one whose last
R3 read pumps 0x08 instead of 0x04, the prior reason `other` is retained. -/
theorem avr_halt_request_all_or_nothing_witness :
    (avr_halt_request pdiHaltGoodScript 0 TargetHaltReason.running).2.1 =
      TargetHaltReason.request ∧
    (avr_halt_request pdiHaltBadScript 0 TargetHaltReason.other).2.1 =
      TargetHaltReason.other := by
  refine ⟨?_, ?_⟩
  · exact (avr_halt_request_all_or_nothing pdiHaltGoodScript 0
      TargetHaltReason.running).2.1 (by decide)
  · exact (avr_halt_request_all_or_nothing pdiHaltBadScript 0
      TargetHaltReason.other).2.2 (by decide)

/-- C6: `avr_pdi_init` fails exactly when the idcode's part-number field
(`idcode & 0x0FFFF000`) is zero or `target_new` allocation fails; the context
is freed exactly in the zero-part-number case; and when the chip-family
prober does not recognize the device, the initializer still succeeds and sets
`halt_reason` to the running state. -/
theorem avr_pdi_init_characterization (atxmega_probe : AvrPdi → Bool × AvrPdi)
    (target_new_ok : Bool) (pdi : AvrPdi) :
    ((avr_pdi_init atxmega_probe target_new_ok pdi).success = false ↔
      (pdi.idcode &&& 0x0FFFF000 = 0 ∨ target_new_ok = false)) ∧
    ((avr_pdi_init atxmega_probe target_new_ok pdi).contextFreed = true ↔
      pdi.idcode &&& 0x0FFFF000 = 0) ∧
    (pdi.idcode &&& 0x0FFFF000 ≠ 0 → target_new_ok = true →
      (atxmega_probe pdi).1 = false →
      avr_pdi_init atxmega_probe target_new_ok pdi =
        ⟨true, false,
          some { (atxmega_probe pdi).2 with halt_reason := TargetHaltReason.running }⟩) := by
  unfold avr_pdi_init
  by_cases h : pdi.idcode &&& 0x0FFFF000 = 0
  · simp [h]
  · cases target_new_ok
    · simp [h]
    · rcases hp : atxmega_probe pdi with ⟨ok, p⟩
      cases ok <;> simp [h, hp]

/-- Witness for C6: a context with part-number field 0x1000, a successful
allocation and an unrecognizing prober yields success with `halt_reason`
running. -/
theorem avr_pdi_init_characterization_witness :
    avr_pdi_init (fun p => (false, p)) true ⟨0, 0x1000, TargetHaltReason.other⟩ =
      ⟨true, false, some ⟨0, 0x1000, TargetHaltReason.running⟩⟩ :=
  (avr_pdi_init_characterization (fun p => (false, p)) true
    ⟨0, 0x1000, TargetHaltReason.other⟩).2.2 (by decide) rfl rfl

/-- Helper: `lpc43xx_wdt_set_period` never touches the IAP call log. -/
theorem lpc43xx_wdt_set_period_iapCalls (env : Lpc43xxEnv) (tr : Lpc43xxTrace) :
    (lpc43xx_wdt_set_period env tr).iapCalls = tr.iapCalls := by
  unfold lpc43xx_wdt_set_period target_mem_write32
  by_cases h : env.memRead LPC43xx_WDT_MODE ≠ 0 ∧
      env.memRead LPC43xx_WDT_MODE &&& LPC43xx_WDT_PROTECT = 0 <;> simp [h]

/-- Helper: `lpc43xx_flash_init` appends exactly one IAP call, the INIT. -/
theorem lpc43xx_flash_init_iapCalls (env : Lpc43xxEnv) (tr : Lpc43xxTrace) :
    (lpc43xx_flash_init env tr).1.iapCalls = tr.iapCalls ++ [IapCall.init] := by
  unfold lpc43xx_flash_init lpc_iap_call target_mem_write32
  simp [lpc43xx_wdt_set_period_iapCalls]

/-- Helper: `lpc43xx_flash_init` succeeds exactly when its INIT call — the
next IAP call of the run — returns the success status. -/
theorem lpc43xx_flash_init_snd (env : Lpc43xxEnv) (tr : Lpc43xxTrace) :
    (lpc43xx_flash_init env tr).2 =
      (env.iapStatus tr.iapCalls.length == IAP_STATUS_CMD_SUCCESS) := by
  unfold lpc43xx_flash_init lpc_iap_call target_mem_write32
  simp [lpc43xx_wdt_set_period_iapCalls]

/-- Helper: the memory writes of `lpc43xx_flash_init` are those of the
watchdog handling followed by the clock-select write. -/
theorem lpc43xx_flash_init_memWrites (env : Lpc43xxEnv) (tr : Lpc43xxTrace) :
    (lpc43xx_flash_init env tr).1.memWrites =
      (lpc43xx_wdt_set_period env tr).memWrites ++
        [(LPC43xx_CGU_CPU_CLK,
          LPC43xx_CGU_BASE_CLK_AUTOBLOCK ||| LPC43xx_CGU_BASE_CLK_SEL_IRC)] := by
  unfold lpc43xx_flash_init lpc_iap_call target_mem_write32
  simp

/-- Helper: `lpc43xx_flash_init` never delegates to the shared erase
primitive. -/
theorem lpc43xx_flash_init_eraseDelegations (env : Lpc43xxEnv) (tr : Lpc43xxTrace) :
    (lpc43xx_flash_init env tr).1.eraseDelegations = tr.eraseDelegations := by
  unfold lpc43xx_flash_init lpc_iap_call lpc43xx_wdt_set_period
  by_cases h : env.memRead LPC43xx_WDT_MODE ≠ 0 ∧
      env.memRead LPC43xx_WDT_MODE &&& LPC43xx_WDT_PROTECT = 0 <;>
    simp [h, target_mem_write32]

/-- C9: before forcing the internal clock and issuing the ROM INIT call,
`lpc43xx_flash_init` handles the watchdog as follows: when the mode register
reads as enabled and not hardware-locked, exactly one write sets the count to
`LPC43xx_WDT_PERIOD_MAX`; when enabled but locked, and when disabled, no
count write occurs; in every case the single clock-select write and the
single INIT call follow, and the function returns `true` exactly when the
INIT status equals the success code. -/
theorem lpc43xx_flash_init_wdt_characterization (env : Lpc43xxEnv) (tr : Lpc43xxTrace) :
    (env.memRead LPC43xx_WDT_MODE ≠ 0 →
      env.memRead LPC43xx_WDT_MODE &&& LPC43xx_WDT_PROTECT = 0 →
      (lpc43xx_flash_init env tr).1.memWrites =
        tr.memWrites ++ [(LPC43xx_WDT_CNT, LPC43xx_WDT_PERIOD_MAX),
          (LPC43xx_CGU_CPU_CLK,
            LPC43xx_CGU_BASE_CLK_AUTOBLOCK ||| LPC43xx_CGU_BASE_CLK_SEL_IRC)]) ∧
    (env.memRead LPC43xx_WDT_MODE &&& LPC43xx_WDT_PROTECT ≠ 0 →
      (lpc43xx_flash_init env tr).1.memWrites =
        tr.memWrites ++ [(LPC43xx_CGU_CPU_CLK,
          LPC43xx_CGU_BASE_CLK_AUTOBLOCK ||| LPC43xx_CGU_BASE_CLK_SEL_IRC)]) ∧
    (env.memRead LPC43xx_WDT_MODE = 0 →
      (lpc43xx_flash_init env tr).1.memWrites =
        tr.memWrites ++ [(LPC43xx_CGU_CPU_CLK,
          LPC43xx_CGU_BASE_CLK_AUTOBLOCK ||| LPC43xx_CGU_BASE_CLK_SEL_IRC)]) ∧
    ((lpc43xx_flash_init env tr).1.iapCalls = tr.iapCalls ++ [IapCall.init]) ∧
    ((lpc43xx_flash_init env tr).2 = true ↔
      env.iapStatus tr.iapCalls.length = IAP_STATUS_CMD_SUCCESS) := by
  refine ⟨fun h1 h2 => ?_, fun h1 => ?_, fun h1 => ?_,
    lpc43xx_flash_init_iapCalls env tr, ?_⟩
  · rw [lpc43xx_flash_init_memWrites]
    unfold lpc43xx_wdt_set_period target_mem_write32
    simp [h1, h2]
  · rw [lpc43xx_flash_init_memWrites]
    unfold lpc43xx_wdt_set_period target_mem_write32
    simp [h1]
  · rw [lpc43xx_flash_init_memWrites]
    unfold lpc43xx_wdt_set_period target_mem_write32
    simp [h1]
  · rw [lpc43xx_flash_init_snd]
    simp

/-- Witness for C9: with the watchdog enabled and unlocked, exactly the count
write then the clock write happen; with it enabled but locked, only the clock
write. -/
theorem lpc43xx_flash_init_wdt_characterization_witness :
    (lpc43xx_flash_init lpcEnvWdtOn emptyTrace).1.memWrites =
      [(LPC43xx_WDT_CNT, LPC43xx_WDT_PERIOD_MAX),
       (LPC43xx_CGU_CPU_CLK,
         LPC43xx_CGU_BASE_CLK_AUTOBLOCK ||| LPC43xx_CGU_BASE_CLK_SEL_IRC)] ∧
    (lpc43xx_flash_init lpcEnvWdtLocked emptyTrace).1.memWrites =
      [(LPC43xx_CGU_CPU_CLK,
        LPC43xx_CGU_BASE_CLK_AUTOBLOCK ||| LPC43xx_CGU_BASE_CLK_SEL_IRC)] := by
  have h1 := (lpc43xx_flash_init_wdt_characterization lpcEnvWdtOn emptyTrace).1
    (by decide) (by decide)
  have h2 := (lpc43xx_flash_init_wdt_characterization lpcEnvWdtLocked emptyTrace).2.1
    (by decide)
  exact ⟨by simpa [emptyTrace] using h1, by simpa [emptyTrace] using h2⟩

/-- C3: `lpc43xx_mass_erase` processes bank 0 then bank 1, issuing for each
bank the PREPARE call over sectors 0–14 before the ERASE call for the same
range; it succeeds exactly when all four calls report status 0; if any call
fails it returns `false` immediately, so when bank 0's PREPARE and ERASE
succeed and bank 1's PREPARE fails, the result is failure and no ERASE call
for bank 1 is ever issued.  (IAP call 0 of the run is the discarded INIT of
`lpc43xx_flash_init`; the four bank calls are calls 1–4.) -/
theorem lpc43xx_mass_erase_characterization (env : Lpc43xxEnv) :
    (env.iapStatus 1 = 0 → env.iapStatus 2 = 0 → env.iapStatus 3 = 0 → env.iapStatus 4 = 0 →
      (lpc43xx_mass_erase env emptyTrace).1.iapCalls =
        [IapCall.init, IapCall.prepare 0 14 0, IapCall.erase 0 14 CPU_CLK_KHZ 0,
         IapCall.prepare 0 14 1, IapCall.erase 0 14 CPU_CLK_KHZ 1] ∧
      (lpc43xx_mass_erase env emptyTrace).2 = true) ∧
    (env.iapStatus 1 ≠ 0 →
      (lpc43xx_mass_erase env emptyTrace).1.iapCalls =
        [IapCall.init, IapCall.prepare 0 14 0] ∧
      (lpc43xx_mass_erase env emptyTrace).2 = false) ∧
    (env.iapStatus 1 = 0 → env.iapStatus 2 ≠ 0 →
      (lpc43xx_mass_erase env emptyTrace).1.iapCalls =
        [IapCall.init, IapCall.prepare 0 14 0, IapCall.erase 0 14 CPU_CLK_KHZ 0] ∧
      (lpc43xx_mass_erase env emptyTrace).2 = false) ∧
    (env.iapStatus 1 = 0 → env.iapStatus 2 = 0 → env.iapStatus 3 ≠ 0 →
      (lpc43xx_mass_erase env emptyTrace).1.iapCalls =
        [IapCall.init, IapCall.prepare 0 14 0, IapCall.erase 0 14 CPU_CLK_KHZ 0,
         IapCall.prepare 0 14 1] ∧
      (lpc43xx_mass_erase env emptyTrace).2 = false ∧
      (∀ lo hi clk, IapCall.erase lo hi clk 1 ∉
        (lpc43xx_mass_erase env emptyTrace).1.iapCalls)) ∧
    (env.iapStatus 1 = 0 → env.iapStatus 2 = 0 → env.iapStatus 3 = 0 → env.iapStatus 4 ≠ 0 →
      (lpc43xx_mass_erase env emptyTrace).1.iapCalls =
        [IapCall.init, IapCall.prepare 0 14 0, IapCall.erase 0 14 CPU_CLK_KHZ 0,
         IapCall.prepare 0 14 1, IapCall.erase 0 14 CPU_CLK_KHZ 1] ∧
      (lpc43xx_mass_erase env emptyTrace).2 = false) := by
  have hT : (lpc43xx_flash_init env emptyTrace).1.iapCalls = [IapCall.init] := by
    simpa [emptyTrace] using lpc43xx_flash_init_iapCalls env emptyTrace
  have hrange : List.range FLASH_NUM_BANK = [0, 1] := rfl
  refine ⟨fun h1 h2 h3 h4 => ?_, fun h1 => ?_, fun h1 h2 => ?_,
    fun h1 h2 h3 => ?_, fun h1 h2 h3 h4 => ?_⟩ <;>
    · unfold lpc43xx_mass_erase
      rw [hrange]
      simp [lpc43xx_mass_erase_loop, lpc43xx_mass_erase_bank, lpc_iap_call, hT,
        FLASH_NUM_SECTOR, *]

/-- Witness for C3: with INIT, bank-0 PREPARE and bank-0 ERASE succeeding and
bank-1 PREPARE failing, mass erase fails and issues no bank-1 ERASE call. -/
theorem lpc43xx_mass_erase_characterization_witness :
    (lpc43xx_mass_erase lpcEnvBank1PrepFail emptyTrace).1.iapCalls =
      [IapCall.init, IapCall.prepare 0 14 0, IapCall.erase 0 14 CPU_CLK_KHZ 0,
       IapCall.prepare 0 14 1] ∧
    (lpc43xx_mass_erase lpcEnvBank1PrepFail emptyTrace).2 = false ∧
    (∀ lo hi clk, IapCall.erase lo hi clk 1 ∉
      (lpc43xx_mass_erase lpcEnvBank1PrepFail emptyTrace).1.iapCalls) :=
  (lpc43xx_mass_erase_characterization lpcEnvBank1PrepFail).2.2.2.1
    (by decide) (by decide) (by decide)

/-- C10: both `lpc43xx_mass_erase` and `lpc43xx_cmd_mkboot` call
`lpc43xx_flash_init` but discard its result: in every run where the INIT call
(IAP call 0) reports a non-success status, mass erase still issues the bank-0
PREPARE call and `mkboot 0` still issues the SET_ACTIVE_BANK call; only
`lpc43xx_flash_erase` propagates the failure, returning −1 without delegating
to the shared erase primitive. -/
theorem lpc43xx_flash_init_result_discarded (env : Lpc43xxEnv) (addr len : Nat)
    (h : env.iapStatus 0 ≠ 0) :
    (lpc43xx_mass_erase env emptyTrace).1.iapCalls.take 2 =
      [IapCall.init, IapCall.prepare 0 14 0] ∧
    (lpc43xx_cmd_mkboot env emptyTrace ["mkboot", "0"]).1.iapCalls =
      [IapCall.init, IapCall.setActiveBank 0 CPU_CLK_KHZ] ∧
    (lpc43xx_flash_erase env emptyTrace addr len).2 = -1 ∧
    (lpc43xx_flash_erase env emptyTrace addr len).1.eraseDelegations = [] := by
  have hT : (lpc43xx_flash_init env emptyTrace).1.iapCalls = [IapCall.init] := by
    simpa [emptyTrace] using lpc43xx_flash_init_iapCalls env emptyTrace
  have hsnd : (lpc43xx_flash_init env emptyTrace).2 = false := by
    rw [lpc43xx_flash_init_snd]
    simp [emptyTrace, IAP_STATUS_CMD_SUCCESS, h]
  have hdel : (lpc43xx_flash_init env emptyTrace).1.eraseDelegations = [] := by
    simpa [emptyTrace] using lpc43xx_flash_init_eraseDelegations env emptyTrace
  have hrange : List.range FLASH_NUM_BANK = [0, 1] := rfl
  refine ⟨?_, ?_, ?_, ?_⟩
  · by_cases h1 : env.iapStatus 1 = 0 <;> by_cases h2 : env.iapStatus 2 = 0 <;>
      by_cases h3 : env.iapStatus 3 = 0 <;> by_cases h4 : env.iapStatus 4 = 0 <;>
      · unfold lpc43xx_mass_erase
        rw [hrange]
        simp [lpc43xx_mass_erase_loop, lpc43xx_mass_erase_bank, lpc_iap_call, hT,
          FLASH_NUM_SECTOR, *]
  · have hs0 : strtoul "0" = 0 := by decide
    by_cases h1 : env.iapStatus 1 = 0 <;>
      · unfold lpc43xx_cmd_mkboot
        simp [hs0, lpc_iap_call, hT, *]
  · unfold lpc43xx_flash_erase
    simp [hsnd]
  · unfold lpc43xx_flash_erase
    simp [hsnd, hdel]

/-- Witness for C10 against the all-calls-fail oracle. -/
theorem lpc43xx_flash_init_result_discarded_witness :
    (lpc43xx_mass_erase lpcEnvInitFail emptyTrace).1.iapCalls.take 2 =
      [IapCall.init, IapCall.prepare 0 14 0] ∧
    (lpc43xx_cmd_mkboot lpcEnvInitFail emptyTrace ["mkboot", "0"]).1.iapCalls =
      [IapCall.init, IapCall.setActiveBank 0 CPU_CLK_KHZ] ∧
    (lpc43xx_flash_erase lpcEnvInitFail emptyTrace 0x1A000000 0x100).2 = -1 ∧
    (lpc43xx_flash_erase lpcEnvInitFail emptyTrace 0x1A000000 0x100).1.eraseDelegations =
      [] :=
  lpc43xx_flash_init_result_discarded lpcEnvInitFail 0x1A000000 0x100 (by decide)

/-- C4 counterexample: the non-numeric argument string "lemon" is not
rejected: `strtoul` parses it as 0, the bank check passes, and the command
issues the INIT and SET_ACTIVE_BANK ROM calls (and, with a transport whose
calls succeed, even reports success) — contradicting the claim that
non-numeric argument strings are rejected with a false result before any ROM
call. -/
theorem lpc43xx_cmd_mkboot_nonnumeric_cex :
    (lpc43xx_cmd_mkboot lpcEnvAllOk emptyTrace ["mkboot", "lemon"]).2 = true ∧
    (lpc43xx_cmd_mkboot lpcEnvAllOk emptyTrace ["mkboot", "lemon"]).1.iapCalls =
      [IapCall.init, IapCall.setActiveBank 0 CPU_CLK_KHZ] := by
  refine ⟨by decide, by decide⟩

/-- C4 (amended): `lpc43xx_cmd_mkboot` rejects, with a `false` result and no
ROM call or memory write, any argument count other than 2 and any argument
whose `strtoul` value exceeds 1 — in particular the strings "2" and "-1"
(which parses to 2³² − 1); but a non-numeric argument string parses to 0 and
is accepted as bank 0, issuing the INIT and SET_ACTIVE_BANK ROM calls. -/
theorem lpc43xx_cmd_mkboot_amended (env : Lpc43xxEnv) (tr : Lpc43xxTrace)
    (argv : List String) :
    (argv.length ≠ 2 → lpc43xx_cmd_mkboot env tr argv = (tr, false)) ∧
    (argv.length = 2 → 1 < strtoul (argv.getD 1 "") →
      lpc43xx_cmd_mkboot env tr argv = (tr, false)) ∧
    (argv.length = 2 → strtoul (argv.getD 1 "") ≤ 1 →
      (lpc43xx_cmd_mkboot env tr argv).1.iapCalls =
        tr.iapCalls ++ [IapCall.init,
          IapCall.setActiveBank (strtoul (argv.getD 1 "")) CPU_CLK_KHZ] ∧
      ((lpc43xx_cmd_mkboot env tr argv).2 = true ↔
        env.iapStatus (tr.iapCalls.length + 1) = 0)) ∧
    strtoul "2" = 2 ∧ strtoul "-1" = 2 ^ 32 - 1 ∧ strtoul "lemon" = 0 := by
  refine ⟨fun h1 => ?_, fun h1 h2 => ?_, fun h1 h2 => ?_, by decide, by decide, by decide⟩
  · unfold lpc43xx_cmd_mkboot
    rw [if_pos h1]
  · unfold lpc43xx_cmd_mkboot
    rw [if_neg (fun hc => hc h1), if_pos h2]
  · have hT := lpc43xx_flash_init_iapCalls env tr
    unfold lpc43xx_cmd_mkboot
    rw [if_neg (fun hc => hc h1), if_neg (Nat.not_lt.mpr h2)]
    by_cases hs1 : env.iapStatus (tr.iapCalls.length + 1) = 0 <;>
      simp [lpc_iap_call, hT, hs1]

/-- Witness for C4's amended theorem: "-1" and "2" are rejected with the
trace untouched, as is a missing bank argument. -/
theorem lpc43xx_cmd_mkboot_amended_witness :
    lpc43xx_cmd_mkboot lpcEnvAllOk emptyTrace ["mkboot", "-1"] = (emptyTrace, false) ∧
    lpc43xx_cmd_mkboot lpcEnvAllOk emptyTrace ["mkboot", "2"] = (emptyTrace, false) ∧
    lpc43xx_cmd_mkboot lpcEnvAllOk emptyTrace ["mkboot"] = (emptyTrace, false) := by
  have hminus := lpc43xx_cmd_mkboot_amended lpcEnvAllOk emptyTrace ["mkboot", "-1"]
  have htwo := lpc43xx_cmd_mkboot_amended lpcEnvAllOk emptyTrace ["mkboot", "2"]
  have hcount := lpc43xx_cmd_mkboot_amended lpcEnvAllOk emptyTrace ["mkboot"]
  exact ⟨hminus.2.1 rfl (by decide), htwo.2.1 rfl (by decide), hcount.1 (by decide)⟩

/-- Helper: when the chip-ID family matches and the chip code is 4 or 7,
`lpc43xx_probe` takes the flash-bearing path. -/
theorem lpc43xx_probe_flash_path (env : Lpc43xxEnv) (t : LpcTarget)
    (hfam : env.memRead LPC43xx_CHIPID &&& LPC43xx_CHIPID_FAMILY_MASK =
      LPC43xx_CHIPID_FAMILY_CODE)
    (h47 : (env.memRead LPC43xx_CHIPID &&& LPC43xx_CHIPID_CHIP_MASK) >>>
        LPC43xx_CHIPID_CHIP_SHIFT = 4 ∨
      (env.memRead LPC43xx_CHIPID &&& LPC43xx_CHIPID_CHIP_MASK) >>>
        LPC43xx_CHIPID_CHIP_SHIFT = 7) :
    lpc43xx_probe env t =
      (lpc43xx_detect_flash env { t with driver := "LPC43xx", massEraseInstalled := true }
        (t.cpuid &&& LPC43xx_CHIPID_CORE_TYPE_MASK), true) := by
  unfold lpc43xx_probe
  simp [hfam, h47]

/-- Helper: under `envWithChipCode`, the chip-ID register reads the family
code with the given chip code in the top four bits. -/
theorem envWithChipCode_memRead_chipid (env : Lpc43xxEnv) (c : Nat) :
    (envWithChipCode env c).memRead LPC43xx_CHIPID =
      (c <<< 28) ||| LPC43xx_CHIPID_FAMILY_CODE := by
  simp [envWithChipCode]

/-- Helper: `envWithChipCode` does not disturb the IAP entry-point read. -/
theorem envWithChipCode_memRead_iap (env : Lpc43xxEnv) (c : Nat) :
    (envWithChipCode env c).memRead IAP_ENTRYPOINT_LOCATION =
      env.memRead IAP_ENTRYPOINT_LOCATION := by
  simp [envWithChipCode, IAP_ENTRYPOINT_LOCATION, LPC43xx_CHIPID]

/-- C5: `lpc43xx_probe` reads the chip-ID register and returns `false`
leaving the target untouched whenever the masked family code differs from the
expected constant; when the family matches, chip codes 4 and 7 both take the
flash-bearing path, chip codes 5 and 6 the flash-less path, and every other
chip code makes the probe return `false`; moreover chip codes 4 and 7
register the identical region set (same RAM windows and same four flash
regions with the same banks, base sectors, addresses, lengths and block
sizes) whenever the rest of target memory reads the same. -/
theorem lpc43xx_probe_characterization (env : Lpc43xxEnv) (t : LpcTarget) :
    (env.memRead LPC43xx_CHIPID &&& LPC43xx_CHIPID_FAMILY_MASK ≠ LPC43xx_CHIPID_FAMILY_CODE →
      lpc43xx_probe env t = (t, false)) ∧
    (∀ c, c = (env.memRead LPC43xx_CHIPID &&& LPC43xx_CHIPID_CHIP_MASK) >>>
        LPC43xx_CHIPID_CHIP_SHIFT →
      env.memRead LPC43xx_CHIPID &&& LPC43xx_CHIPID_FAMILY_MASK = LPC43xx_CHIPID_FAMILY_CODE →
      ((c = 4 ∨ c = 7 →
        lpc43xx_probe env t =
          (lpc43xx_detect_flash env { t with driver := "LPC43xx", massEraseInstalled := true }
            (t.cpuid &&& LPC43xx_CHIPID_CORE_TYPE_MASK), true)) ∧
       (c = 5 ∨ c = 6 →
        lpc43xx_probe env t =
          ({ t with driver := "LPC43xx", massEraseInstalled := true }, true)) ∧
       (c ≠ 4 → c ≠ 5 → c ≠ 6 → c ≠ 7 → (lpc43xx_probe env t).2 = false))) ∧
    (∀ c₁ c₂, (c₁ = 4 ∨ c₁ = 7) → (c₂ = 4 ∨ c₂ = 7) →
      (lpc43xx_probe (envWithChipCode env c₁) t).1.flashRegions =
        (lpc43xx_probe (envWithChipCode env c₂) t).1.flashRegions ∧
      (lpc43xx_probe (envWithChipCode env c₁) t).1.ramRegions =
        (lpc43xx_probe (envWithChipCode env c₂) t).1.ramRegions ∧
      (lpc43xx_probe (envWithChipCode env c₁) t).2 = true) := by
  refine ⟨fun h1 => ?_, fun c hc hfam => ⟨fun h47 => ?_, fun h56 => ?_,
    fun hn4 hn5 hn6 hn7 => ?_⟩, fun c₁ c₂ h1 h2 => ?_⟩
  · unfold lpc43xx_probe
    simp [h1]
  · exact lpc43xx_probe_flash_path env t hfam (hc ▸ h47)
  · subst hc
    unfold lpc43xx_probe lpc43xx_detect_flashless
    rcases h56 with h | h <;> simp [hfam, h]
  · subst hc
    unfold lpc43xx_probe
    simp [hfam, hn4, hn5, hn6, hn7]
  · have hp : ∀ c : Nat, c = 4 ∨ c = 7 → lpc43xx_probe (envWithChipCode env c) t =
        (lpc43xx_detect_flash (envWithChipCode env c)
          { t with driver := "LPC43xx", massEraseInstalled := true }
          (t.cpuid &&& LPC43xx_CHIPID_CORE_TYPE_MASK), true) := by
      intro c hc
      refine lpc43xx_probe_flash_path _ _ ?_ ?_
      · rw [envWithChipCode_memRead_chipid]
        rcases hc with rfl | rfl <;> decide
      · rw [envWithChipCode_memRead_chipid]
        rcases hc with rfl | rfl
        · exact Or.inl (by decide)
        · exact Or.inr (by decide)
    refine ⟨?_, ?_, ?_⟩
    · rw [hp c₁ h1, hp c₂ h2]
      simp only [lpc43xx_detect_flash, lpc43xx_add_flash, target_add_ram,
        envWithChipCode_memRead_iap]
    · rw [hp c₁ h1, hp c₂ h2]
      simp only [lpc43xx_detect_flash, lpc43xx_add_flash, target_add_ram,
        envWithChipCode_memRead_iap]
    · rw [hp c₁ h1]

/-- Witness for C5: a chip-ID read of 0 fails the family check and the probe
rejects the device without touching the target. -/
theorem lpc43xx_probe_characterization_witness :
    lpc43xx_probe lpcEnvAllOk lpcTarget0 = (lpcTarget0, false) :=
  (lpc43xx_probe_characterization lpcEnvAllOk lpcTarget0).1 (by decide)
